import Mathlib

/-!
# xoctave-widgets: the widget synchronisation core

A shallow embedding of `src/__xwidgets_load__.cc`: the value codec
(`xwidgets_serialize`, `xwidgets_deserialize`), the sync policy
(`is_sync_property`), the state mirror (`serialize_state`, `apply_patch`,
`put`, `notify_frontend`, `notify_backend`) and the message router
(`handle_message`, `handle_custom_message`).

The C++ object is mutated in place; here every operation takes the state of
the widget and returns the new one.  What the widget does to the outside
(patches sent on the comm, functions called in the interpreter) is appended
to a trace that is part of the state.  What the interpreter and the
libraries do when called is a parameter (`host`, `runtime`).
-/

namespace XWidgets

/-! ## Host values -/

/-- A C++ `double`, kept as its 64-bit IEEE-754 pattern.  The codec only
moves doubles around; the one computation is the conversion from an
integer in `scalar_value`. -/
structure Double where
  bits : Nat
deriving DecidableEq, Repr

/-- Position of the highest set bit of `n` (0 for `n < 2`), by halving at
most `fuel` times. -/
def floor_log2 : Nat → Nat → Nat
  | 0, _ => 0
  | fuel + 1, n => if n < 2 then 0 else floor_log2 fuel (n / 2) + 1

/-- The binary64 pattern of a positive magnitude `a < 2 ^ 64`, rounded to
nearest, ties to even (the C++ conversion of a 64-bit integer to
`double`). -/
def double_bits_of_magnitude (a : Nat) : Nat :=
  let e := floor_log2 64 a
  if e ≤ 52 then
    (e + 1023) * 2 ^ 52 + (a * 2 ^ (52 - e) - 2 ^ 52)
  else
    let sh := e - 52
    let q := a / 2 ^ sh
    let r := a % 2 ^ sh
    let half := 2 ^ (sh - 1)
    let q1 := if half < r ∨ (r = half ∧ q % 2 = 1) then q + 1 else q
    (e + 1023) * 2 ^ 52 + (q1 - 2 ^ 52)

/-- Conversion of an integer to `double`. -/
def Double.of_int (n : Int) : Double :=
  if n = 0 then ⟨0⟩
  else if 0 < n then ⟨double_bits_of_magnitude n.natAbs⟩
  else ⟨2 ^ 63 + double_bits_of_magnitude n.natAbs⟩

/-- The eight integer classes of the host. -/
inductive int_type where
  | int8 | int16 | int32 | int64 | uint8 | uint16 | uint32 | uint64
deriving DecidableEq, Repr

/-- An `octave_value`, as far as the codec and the widget tell values apart.
Collections keep their elements in linear-index order; their shape is not
tracked. -/
inductive octave_value where
  /-- a default-constructed `octave_value ()`: no value -/
  | undefined
  /-- a logical scalar -/
  | bool (b : Bool)
  /-- a double scalar -/
  | scalar (d : Double)
  /-- an integer scalar of one of the eight integer classes -/
  | int (t : int_type) (n : Int)
  /-- a character string -/
  | string (s : String)
  /-- a classdef object: the names of its class and superclasses, and the
  comm id of the widget behind it -/
  | classdef (classes : List String) (id : String)
  /-- a cell array -/
  | cell (elems : List octave_value)
  /-- the null matrix `octave_null_matrix::instance` -/
  | null_matrix
  /-- a real matrix that is not a scalar (`Matrix ()` is `matrix []`) -/
  | matrix (elems : List Double)
  /-- a scalar struct `octave_scalar_map`, fields in insertion order -/
  | map (fields : List (String × octave_value))
  /-- a function handle -/
  | fcn_handle (name : String)
deriving Repr

/-- A `nl::json` document.  An object is a `std::map`: its items are kept by
`std_map_set` in ascending key order, one item per key. -/
inductive json where
  | null
  | boolean (b : Bool)
  | number_integer (n : Int)
  | number_unsigned (n : Nat)
  | number_float (d : Double)
  | string (s : String)
  | array (elems : List json)
  | object (items : List (String × json))
  | binary (bytes : List Nat)
  | discarded
deriving Repr

/-- A `xeus::buffer_sequence`: the raw binary buffers of a message. -/
abbrev buffer_sequence := List (List Nat)

/-! ## Association lists: `std::map` and `octave_scalar_map` -/

/-- The value bound to `k`: `std::map::find`, `octave_scalar_map::contents`. -/
def assoc_find {α : Type} (k : String) : List (String × α) → Option α
  | [] => none
  | (k1, v) :: m => if k1 = k then some v else assoc_find k m

/-- Whether `k` is bound: `std::map::count (k) != 0`. -/
def assoc_count {α : Type} (k : String) (m : List (String × α)) : Bool :=
  (assoc_find k m).isSome

/-- Binding `k` in a `std::map<std::string, _>`: an existing item is replaced,
a new one goes to its place in ascending key order (the order of
`std::string::operator<`, lexicographic). -/
def std_map_set {α : Type} (k : String) (v : α) : List (String × α) → List (String × α)
  | [] => [(k, v)]
  | (k1, v1) :: m =>
    if k = k1 then (k, v) :: m
    else if k.data < k1.data then (k, v) :: (k1, v1) :: m
    else (k1, v1) :: std_map_set k v m

/-- Binding of `octave_scalar_map::setfield`: an existing field is replaced, a
new one is appended. -/
def setfield {α : Type} (k : String) (v : α) : List (String × α) → List (String × α)
  | [] => [(k, v)]
  | (k1, v1) :: m => if k1 = k then (k, v) :: m else (k1, v1) :: setfield k v m

/-! ## Type predicates and extractors of `octave_value` (host runtime) -/

/-- What the codec asks of the host and this file does not settle. -/
structure host where
  /-- the answer of `is_real_scalar ()` on an integer scalar (Octave says
  yes: its integer scalars count as real scalars) -/
  integer_is_real_scalar : Bool
deriving DecidableEq, Repr

namespace octave_value

def is_bool_scalar : octave_value → Bool
  | .bool _ => true
  | _ => false

/-- Host predicate `is_real_scalar`: true of double scalars and of logical
scalars; on integer scalars it is what the host answers. -/
def is_real_scalar (h : host) : octave_value → Bool
  | .bool _ => true
  | .scalar _ => true
  | .int _ _ => h.integer_is_real_scalar
  | _ => false

def isinteger : octave_value → Bool
  | .int _ _ => true
  | _ => false

def is_scalar_type : octave_value → Bool
  | .bool _ => true
  | .scalar _ => true
  | .int _ _ => true
  | _ => false

def is_string : octave_value → Bool
  | .string _ => true
  | _ => false

def is_classdef_object : octave_value → Bool
  | .classdef _ _ => true
  | _ => false

def iscell : octave_value → Bool
  | .cell _ => true
  | _ => false

def isnull : octave_value → Bool
  | .null_matrix => true
  | _ => false

def is_function_handle : octave_value → Bool
  | .fcn_handle _ => true
  | _ => false

def bool_value : octave_value → Bool
  | .bool b => b
  | _ => false

/-- Extractor `scalar_value`: the value as a `double`. -/
def scalar_value : octave_value → Double
  | .scalar d => d
  | .bool b => Double.of_int (if b then 1 else 0)
  | .int _ n => Double.of_int n
  | _ => ⟨0⟩

/-- Extractor `int64_value`: the value as an `int64_t`, saturating. -/
def int64_value : octave_value → Int
  | .int _ n => max (-(2 ^ 63)) (min n (2 ^ 63 - 1))
  | _ => 0

def string_value : octave_value → String
  | .string s => s
  | _ => ""

end octave_value

/-! ## Type predicates and accessors of `nl::json` (library) -/

namespace json

def is_boolean : json → Bool
  | .boolean _ => true
  | _ => false

def is_number_float : json → Bool
  | .number_float _ => true
  | _ => false

/-- Library predicate `is_number_integer`: signed and unsigned integers. -/
def is_number_integer : json → Bool
  | .number_integer _ => true
  | .number_unsigned _ => true
  | _ => false

def is_string : json → Bool
  | .string _ => true
  | _ => false

def is_array : json → Bool
  | .array _ => true
  | _ => false

def is_object : json → Bool
  | .object _ => true
  | _ => false

def is_null : json → Bool
  | .null => true
  | _ => false

def get_bool : json → Bool
  | .boolean b => b
  | _ => false

def get_double : json → Double
  | .number_float d => d
  | _ => ⟨0⟩

/-- Accessor `get<int64_t>`: an unsigned integer is cast, wrapping at `2 ^ 63`. -/
def get_int64 : json → Int
  | .number_integer n => n
  | .number_unsigned n => ((n + 2 ^ 63) % 2 ^ 64 : Nat) - 2 ^ 63
  | _ => 0

def get_string : json → String
  | .string s => s
  | _ => ""

/-- Library call `j.contains (key)`: false on anything that is not an object. -/
def contains (j : json) (key : String) : Bool :=
  match j with
  | .object items => assoc_count key items
  | _ => false

/-- Library call `j.find (key)`: the item under `key` of an object. -/
def find (j : json) (key : String) : Option json :=
  match j with
  | .object items => assoc_find key items
  | _ => none

/-- Read access `j[key]` to an item that is there (`null` stands in where the
C++ would have no item to refer to). -/
def get (j : json) (key : String) : json :=
  (j.find key).getD .null

/-- Write access `j[key]`, followed by the update `f` of the item referred
to: a `null` document first becomes an empty object, a missing item is first
created as `null`.  (On any other kind of document the library throws; the
documents written in this file start out `null`.) -/
def update (j : json) (key : String) (f : json → json) : json :=
  match j with
  | .null => .object (std_map_set key (f .null) [])
  | .object items => .object (std_map_set key (f ((assoc_find key items).getD .null)) items)
  | j => j

/-- Library call `j.push_back (e)` on an array (a `null` becomes an array
first). -/
def push_back (j : json) (e : json) : json :=
  match j with
  | .null => .array [e]
  | .array elems => .array (elems ++ [e])
  | j => j

end json

/-! ## Value codec -/

/-- The overload `xwidgets_serialize (octave_classdef const&, ...)`: a widget
is written as the string `IPY_MODEL_<id>`; any other object only raises a
warning and leaves `j` as it is. -/
def xwidgets_serialize_classdef (classes : List String) (id : String) (j : json) : json :=
  if "__xwidget_internal__" ∈ classes then .string ("IPY_MODEL_" ++ id) else j

mutual
/-- The dispatcher `xwidgets_serialize (octave_value const&, nl::json&, ...)`:
the document `j` after the call.  The scalar overloads come from the
xwidgets library and assign the value (`j = value`); the last branch only
raises a warning.  No branch touches the buffer sequence. -/
def xwidgets_serialize (h : host) (ov : octave_value) (j : json) : json :=
  if ov.is_bool_scalar then .boolean ov.bool_value
  else if ov.is_real_scalar h then .number_float ov.scalar_value
  else if ov.isinteger && ov.is_scalar_type then .number_integer ov.int64_value
  else if ov.is_string then .string ov.string_value
  else if ov.is_classdef_object then
    match ov with
    | .classdef classes id => xwidgets_serialize_classdef classes id j
    | _ => j
  else if ov.iscell then
    match ov with
    | .cell cv => xwidgets_serialize_matrix_like h cv (.array [])
    | _ => j
  else if ov.isnull then .null
  else j
/-- The loop of `xwidgets_serialize_matrix_like` over the elements not yet
visited, `j` being the array built so far. -/
def xwidgets_serialize_matrix_like (h : host) : List octave_value → json → json
  | [], j => j
  | e :: mv, j =>
    xwidgets_serialize_matrix_like h mv (j.push_back (xwidgets_serialize h e .null))
end

mutual
/-- The dispatcher `xwidgets_deserialize (octave_value&, nl::json const&, ...)`:
the value `ov` after the call.  The last branch only raises a warning and
leaves `ov` as it is. -/
def xwidgets_deserialize (ov : octave_value) (j : json) (b : buffer_sequence) : octave_value :=
  if j.is_boolean then .bool j.get_bool
  else if j.is_number_float then .scalar j.get_double
  else if j.is_number_integer then .int .int64 j.get_int64
  else if j.is_string then .string j.get_string
  else if j.is_array then
    match j with
    | .array elems => .cell (xwidgets_deserialize_matrix_like elems b)
    | _ => ov
  else if j.is_object then
    match j with
    | .object items => .map (xwidgets_deserialize_object items b [])
    | _ => ov
  else if j.is_null then .null_matrix
  else ov
/-- The loop of `xwidgets_deserialize_matrix_like<Cell>`: every element of
the new `Cell` starts as `Matrix ()` and is decoded in place. -/
def xwidgets_deserialize_matrix_like : List json → buffer_sequence → List octave_value
  | [], _ => []
  | e :: rest, b => xwidgets_deserialize (.matrix []) e b :: xwidgets_deserialize_matrix_like rest b
/-- The loop of `xwidgets_deserialize_object` over the items not yet visited,
`p` being the struct built so far. -/
def xwidgets_deserialize_object :
    List (String × json) → buffer_sequence → List (String × octave_value) → List (String × octave_value)
  | [], _, p => p
  | (key, val) :: rest, b, p =>
    xwidgets_deserialize_object rest b (setfield key (xwidgets_deserialize .undefined val b) p)
end

/-! ## Class metadata and sync policy -/

/-- A property definition, as far as the widget reads it: what
`property.get ("Sync")` returns, nothing (an empty value) where the classdef
block sets no `Sync` attribute, else the logical it sets. -/
structure cdef_property where
  Sync : Option Bool
deriving DecidableEq, Repr

/-- A classdef class, as far as the widget reads it. -/
structure cdef_class where
  /-- result of `get_name ()` -/
  name : String
  /-- result of `get_property_map (property_all)`, a `std::map`: own and
  inherited properties in iteration order, one entry per name -/
  property_map : List (String × cdef_property)
  /-- the names for which `find_method (name).ok ()` holds -/
  methods : List String
deriving DecidableEq, Repr

/-- The test `cls.find_method (name).ok ()`. -/
def cdef_class.find_method (cls : cdef_class) (name : String) : Bool :=
  decide (name ∈ cls.methods)

/-- The check `!property.get ("Sync").isempty () && property.get ("Sync").bool_value ()`. -/
def is_sync_property (property : cdef_property) : Bool :=
  !property.Sync.isNone && property.Sync.getD false

/-! ## The widget and its surroundings -/

/-- A `xeus::xmessage`, as far as the widget reads it. -/
structure xmessage where
  content : json
  buffers : buffer_sequence
deriving Repr

/-- One thing the widget does to the outside. -/
inductive action where
  /-- the library call `send_patch (state, buffers)`: one outbound patch -/
  | send_patch (state : json) (buffers : buffer_sequence)
  /-- the call `octave::feval (callback, obj)` of an observer of `pname` -/
  | feval_observer (pname : String) (callback : octave_value)
  /-- the call `octave::feval (callback, obj)` of a callback of `event` -/
  | feval_event (event : String) (callback : octave_value)
  /-- the call `meth.execute (obj, ovl (message), 0)` of the class method `name` -/
  | execute (name : String) (message : octave_value)
deriving Repr

/-- The state of one `xwidget`, with the trace of what it has done so far. -/
structure xwidget where
  /-- result of `get_class ()` -/
  cls : cdef_class
  /-- the field table of `cdef_object_scalar` -/
  m_map : List (String × octave_value)
  /-- the classes whose constructor has not finished yet -/
  m_ctor_list : List String
  m_observerCallbacks : List (String × List octave_value)
  m_eventCallbacks : List (String × List octave_value)
  /-- result of `xcommon::id ()` -/
  id : String
  /-- the message held through `xcommon::hold ()` -/
  hold : Option xmessage
  /-- outbound patches and interpreter calls so far, oldest first -/
  trace : List action
deriving Repr

/-- What lies outside this file and is called from it: the interpreter, which
runs a function handle or a class method on the object reference and may
change the widget in doing so, and the xwidgets library.  A call that ends in
an error of the interpreter is outside the model. -/
structure runtime where
  /-- the answers of the host to the codec -/
  host : host
  /-- effect of `octave::feval (callback, obj)` -/
  feval : octave_value → xwidget → xwidget
  /-- effect of `meth.execute (obj, ovl (message), 0)` for the method `name` -/
  execute : String → octave_value → xwidget → xwidget
  /-- result of `xw::insert_buffer_paths (state, buffer_paths)` -/
  insert_buffer_paths : json → json → json

/-- Whether an action is an outbound patch. -/
def action.is_patch : action → Bool
  | .send_patch _ _ => true
  | _ => false

/-- The outbound patches of a trace, oldest first. -/
def patches (trace : List action) : List action :=
  trace.filter action.is_patch

namespace xwidget

/-- Host test `is_constructed ()`. -/
def is_constructed (w : xwidget) : Bool :=
  w.m_ctor_list.isEmpty

/-- Host read `get (pname)` of the field table (the host raises an error
where the table has no such slot; `initialize_object` gives every property of
the class one, and `undefined` stands in otherwise). -/
def get (w : xwidget) (pname : String) : octave_value :=
  (assoc_find pname w.m_map).getD .undefined

/-- Host write `octave::handle_cdef_object::put (pname, val)`: the plain
write to the field table. -/
def handle_cdef_object_put (w : xwidget) (pname : String) (val : octave_value) : xwidget :=
  { w with m_map := setfield pname val w.m_map }

/-- Library call `send_patch (std::move (state), std::move (buffers))`. -/
def send_patch (w : xwidget) (state : json) (buffers : buffer_sequence) : xwidget :=
  { w with trace := w.trace ++ [action.send_patch state buffers] }

/-- The method `xwidget::serialize_state (state, buffers)`: the document
`state` after the call. -/
def serialize_state (w : xwidget) (h : host) (state : json) : json :=
  let properties := w.cls.property_map
  properties.foldl
    (fun state property_tuple =>
      if is_sync_property property_tuple.2 then
        let ov := w.get property_tuple.1
        state.update property_tuple.1 (xwidgets_serialize h ov)
      else state)
    state

/-- The method `xwidget::notify_backend (pname)`.  The callbacks are taken
from the list as it stands when the loop begins. -/
def notify_backend (rt : runtime) (w : xwidget) (pname : String) : xwidget :=
  if assoc_count pname w.m_observerCallbacks then
    ((assoc_find pname w.m_observerCallbacks).getD []).foldl
      (fun w callback =>
        rt.feval callback { w with trace := w.trace ++ [action.feval_observer pname callback] })
      w
  else w

/-- The method `xwidget::notify_frontend (name, value)`. -/
def notify_frontend (w : xwidget) (h : host) (name : String) (value : octave_value) : xwidget :=
  let state := json.null
  let buffers : buffer_sequence := []
  let state := state.update name (xwidgets_serialize h value)
  w.send_patch state buffers

/-- The method `xwidget::apply_patch (state, buffers)`. -/
def apply_patch (rt : runtime) (w : xwidget) (state : json) (buffers : buffer_sequence) : xwidget :=
  let properties := w.cls.property_map
  properties.foldl
    (fun w property_tuple =>
      if assoc_count property_tuple.1 properties && is_sync_property property_tuple.2
          && state.contains property_tuple.1 then
        let value := xwidgets_deserialize .undefined (state.get property_tuple.1) buffers
        let w := w.handle_cdef_object_put property_tuple.1 value
        notify_backend rt w property_tuple.1
      else w)
    w

/-- The method `xwidget::put (pname, val)`, the local write. -/
def put (rt : runtime) (w : xwidget) (pname : String) (val : octave_value) : xwidget :=
  let w := w.handle_cdef_object_put pname val
  if w.is_constructed then
    let properties := w.cls.property_map
    if assoc_count pname properties
        && is_sync_property ((assoc_find pname properties).getD ⟨none⟩) then
      let w := w.notify_frontend rt.host pname val
      notify_backend rt w pname
    else w
  else w

end xwidget

/-- Read access `j[key]` on a `const` document: there has to be such an item. -/
def json.const_ref (j : json) (key : String) : Except String json :=
  match j.find key with
  | some v => .ok v
  | none => .error ("json: no item " ++ key)

/-- Conversion of a document to `std::string`: only a string converts. -/
def json.to_std_string : json → Except String String
  | .string s => .ok s
  | _ => .error "json: type must be string"

namespace xwidget

/-- The method `xwidget::handle_custom_message (jsonmessage)`. -/
def handle_custom_message (rt : runtime) (w : xwidget) (jsonmessage : json) :
    Except String xwidget :=
  if w.cls.find_method "handle_custom_message" then
    let message := xwidgets_deserialize .undefined jsonmessage []
    .ok (rt.execute "handle_custom_message" message
      { w with trace := w.trace ++ [action.execute "handle_custom_message" message] })
  else if jsonmessage.contains "event" then
    match (jsonmessage.get "event").to_std_string with
    | .error e => .error e
    | .ok event =>
      if assoc_count event w.m_eventCallbacks then
        .ok (((assoc_find event w.m_eventCallbacks).getD []).foldl
          (fun w callback =>
            rt.feval callback { w with trace := w.trace ++ [action.feval_event event callback] })
          w)
      else .ok w
  else .ok w

/-- The method `xwidget::handle_message (message)`. -/
def handle_message (rt : runtime) (w : xwidget) (message : xmessage) : Except String xwidget :=
  match message.content.const_ref "data" with
  | .error e => .error e
  | .ok data =>
    match data.const_ref "method" with
    | .error e => .error e
    | .ok m =>
      match m.to_std_string with
      | .error e => .error e
      | .ok method =>
        if method = "update" then
          match data.const_ref "state" with
          | .error e => .error e
          | .ok state =>
            match data.const_ref "buffer_paths" with
            | .error e => .error e
            | .ok buffer_paths =>
              let buffers := message.buffers
              let w := { w with hold := some message }
              let state := rt.insert_buffer_paths state buffer_paths
              let w := w.apply_patch rt state buffers
              .ok { w with hold := none }
        else if method = "request_state" then
          let state := json.null
          let buffers : buffer_sequence := []
          let state := w.serialize_state rt.host state
          .ok (w.send_patch state buffers)
        else if method = "custom" then
          match data.find "content" with
          | some it => w.handle_custom_message rt it
          | none => .ok w
        else .ok w

end xwidget

/-! ## Functions installed in the interpreter -/

/-- Host extractor `xstring_value (msg)`: the string, or the error `msg`. -/
def octave_value.xstring_value (ov : octave_value) (msg : String) : Except String String :=
  if ov.is_string then .ok ov.string_value else .error msg

/-- The step `m[key].push_back (fcn)` on a callback table: the list under
`key`, created empty where there is none, gets `fcn` at its end. -/
def push_back_callback (key : String) (fcn : octave_value)
    (m : List (String × List octave_value)) : List (String × List octave_value) :=
  std_map_set key ((assoc_find key m).getD [] ++ [fcn]) m

/-- The function `observe (obj, pname, fcn)`, with `w` the widget behind
`args (0)`: the widget afterwards, and the values returned or the error
raised. -/
def Fobserve (w : xwidget) (args1 args2 : octave_value) :
    xwidget × Except String (List octave_value) :=
  match args1.xstring_value "PNAME must be a string with the property name" with
  | .error e => (w, .error e)
  | .ok pname =>
    let fcn := args2
    if !fcn.is_function_handle then (w, .error "HANDLE must be a function handle")
    else
      ({ w with m_observerCallbacks := push_back_callback pname fcn w.m_observerCallbacks },
        .ok [])

/-- The function `on (obj, event, fcn)`, with `w` the widget behind
`args (0)`: the widget afterwards, and the values returned or the error
raised. -/
def Fon (w : xwidget) (args1 args2 : octave_value) :
    xwidget × Except String (List octave_value) :=
  match args1.xstring_value "EVENT must be a string with the event name" with
  | .error e => (w, .error e)
  | .ok event =>
    let fcn := args2
    if !fcn.is_function_handle then (w, .error "HANDLE must be a function handle")
    else
      ({ w with m_eventCallbacks := push_back_callback event fcn w.m_eventCallbacks }, .ok [])

/-! ## The string-array overload of the codec -/

/-- The loop of `xwidgets_serialize_matrix_like` at `Array<std::string>`: an
element is a `std::string`, which the overload of the xwidgets library
assigns (`j = value`). -/
def xwidgets_serialize_matrix_like_string : List String → json → json
  | [], j => j
  | e :: mv, j => xwidgets_serialize_matrix_like_string mv (j.push_back (.string e))

/-- The overload `xwidgets_serialize (Array<std::string> const&, ...)`.  The
dispatcher on `octave_value` does not call it. -/
def xwidgets_serialize_string_array (mv : List String) : json :=
  xwidgets_serialize_matrix_like_string mv (.array [])

/-! ## Names used in the statements -/

/-- The observers registered for `pname`, in registration order. -/
def xwidget.observers (w : xwidget) (pname : String) : List octave_value :=
  (assoc_find pname w.m_observerCallbacks).getD []

/-- No branch of the dispatcher `xwidgets_serialize` takes the value: it falls
through to the final warning. -/
def octave_value.no_encoding_rule (ov : octave_value) (h : host) : Bool :=
  !ov.is_bool_scalar && !ov.is_real_scalar h && !(ov.isinteger && ov.is_scalar_type)
    && !ov.is_string && !ov.is_classdef_object && !ov.iscell && !ov.isnull

/-- The callbacks registered for `event`, in registration order. -/
def xwidget.event_callbacks (w : xwidget) (event : String) : List octave_value :=
  (assoc_find event w.m_eventCallbacks).getD []

/-- The loop of `apply_patch` over the properties `l` not yet visited, `P`
being the whole property map. -/
def apply_patch_loop (rt : runtime) (P : List (String × cdef_property)) (state : json)
    (buffers : buffer_sequence) (l : List (String × cdef_property)) (w : xwidget) : xwidget :=
  l.foldl
    (fun w property_tuple =>
      if assoc_count property_tuple.1 P && is_sync_property property_tuple.2
          && state.contains property_tuple.1 then
        let value := xwidgets_deserialize .undefined (state.get property_tuple.1) buffers
        let w := w.handle_cdef_object_put property_tuple.1 value
        xwidget.notify_backend rt w property_tuple.1
      else w)
    w

/-- The loop of `serialize_state` over the properties `l` not yet visited. -/
def serialize_state_loop (w : xwidget) (h : host) (l : List (String × cdef_property))
    (state : json) : json :=
  l.foldl
    (fun state property_tuple =>
      if is_sync_property property_tuple.2 then
        let ov := w.get property_tuple.1
        state.update property_tuple.1 (xwidgets_serialize h ov)
      else state)
    state

/-- The host as Octave answers: an integer scalar counts as a real scalar. -/
def octave : host :=
  { integer_is_real_scalar := true }

/-- A runtime whose callbacks and methods leave the widget alone, and whose
`insert_buffer_paths` has nothing to insert. -/
def quiet_runtime : runtime :=
  { host := octave
    feval := fun _ w => w
    execute := fun _ _ w => w
    insert_buffer_paths := fun state _ => state }

/-- A runtime whose callbacks write `"seen"` to the field `label`, straight
into the field table. -/
def relabelling_runtime : runtime :=
  { host := octave
    feval := fun _ w => w.handle_cdef_object_put "label" (.string "seen")
    execute := fun _ _ w => w
    insert_buffer_paths := fun state _ => state }

/-- A class with the synchronized properties `label` and `value` and the
property `secret` that has no `Sync` attribute. -/
def slider_class : cdef_class :=
  { name := "Slider"
    property_map := [("label", ⟨some true⟩), ("secret", ⟨none⟩), ("value", ⟨some true⟩)]
    methods := [] }

/-- A fully constructed widget of class `Slider` with `value = 7`,
`label = "x"`, and two observers of `value`. -/
def slider : xwidget :=
  { cls := slider_class
    m_map := [("label", .string "x"), ("secret", .bool true), ("value", .scalar (Double.of_int 7))]
    m_ctor_list := []
    m_observerCallbacks := [("value", [.fcn_handle "on_value", .fcn_handle "log"])]
    m_eventCallbacks := []
    id := "0123abcd"
    hold := none
    trace := [] }

/-- The same widget while its constructor is still running. -/
def slider_under_construction : xwidget :=
  { slider with m_ctor_list := ["Slider"] }

/-- The same widget with a real matrix, which has no encoding, in `value`. -/
def slider_with_matrix : xwidget :=
  { slider with
    m_map := [("label", .string "x"), ("secret", .bool true),
      ("value", .matrix [Double.of_int 1, Double.of_int 2])] }

/-- A class like `Slider` that also defines the method
`handle_custom_message`. -/
def button_class : cdef_class :=
  { name := "Button"
    property_map := [("label", ⟨some true⟩), ("secret", ⟨none⟩), ("value", ⟨some true⟩)]
    methods := ["handle_custom_message"] }

/-- The example widget as an instance of `Button`, with one callback of the
event `click`. -/
def button : xwidget :=
  { slider with cls := button_class, m_eventCallbacks := [("click", [.fcn_handle "clicked"])] }

/-- A reference to the example widget: an object of class `Slider`, whose
superclasses include `__xwidget_internal__`. -/
def slider_reference : octave_value :=
  octave_value.classdef ["Slider", "__xwidget_internal__", "handle"] "0123abcd"

/-- An inbound message with the given `data`. -/
def message_with (data : json) : xmessage :=
  { content := .object [("data", data)], buffers := [] }

/-- An inbound `"update"` message with the state `{"value": 7}`. -/
def update_message : xmessage :=
  message_with (.object [("buffer_paths", .array []), ("method", .string "update"),
    ("state", .object [("value", .number_unsigned 7)])])

/-- An inbound `"request_state"` message. -/
def request_state_message : xmessage :=
  message_with (.object [("method", .string "request_state")])

/-- An inbound `"custom"` message with the content `{"event": "click"}`. -/
def click_message : xmessage :=
  message_with (.object [("content", .object [("event", .string "click")]),
    ("method", .string "custom")])

/-- An inbound message with a method name the router does not know. -/
def echo_message : xmessage :=
  message_with (.object [("method", .string "echo")])

/-- An inbound `"custom"` message without content. -/
def empty_custom_message : xmessage :=
  message_with (.object [("method", .string "custom")])

/-! ## Lemmas on association lists -/

theorem assoc_find_std_map_set_self {α : Type} (k : String) (v : α) (m : List (String × α)) :
    assoc_find k (std_map_set k v m) = some v := by
  induction m with
  | nil => simp [std_map_set, assoc_find]
  | cons t m ih =>
    obtain ⟨k1, v1⟩ := t
    by_cases h1 : k = k1
    · simp [std_map_set, assoc_find, h1]
    · by_cases h2 : k.data < k1.data
      · simp [std_map_set, assoc_find, h1, h2]
      · have h3 : ¬ k1 = k := fun h => h1 h.symm
        simp [std_map_set, assoc_find, h1, h2, h3, ih]

theorem assoc_find_std_map_set_ne {α : Type} (k k2 : String) (v : α) (m : List (String × α))
    (hne : k2 ≠ k) : assoc_find k2 (std_map_set k v m) = assoc_find k2 m := by
  have hne2 : ¬ k = k2 := fun h => hne h.symm
  induction m with
  | nil => simp [std_map_set, assoc_find, hne2]
  | cons t m ih =>
    obtain ⟨k1, v1⟩ := t
    by_cases h1 : k = k1
    · subst h1
      simp [std_map_set, assoc_find, hne2]
    · by_cases h2 : k.data < k1.data
      · simp [std_map_set, assoc_find, h1, h2, hne2]
      · by_cases h3 : k1 = k2
        · subst h3
          simp [std_map_set, assoc_find, h1, h2]
        · simp [std_map_set, assoc_find, h1, h2, h3, ih]

theorem assoc_find_setfield_ne {α : Type} (k k2 : String) (v : α) (m : List (String × α))
    (hne : k2 ≠ k) : assoc_find k2 (setfield k v m) = assoc_find k2 m := by
  have hne2 : ¬ k = k2 := fun h => hne h.symm
  induction m with
  | nil => simp [setfield, assoc_find, hne2]
  | cons t m ih =>
    obtain ⟨k1, v1⟩ := t
    by_cases h1 : k1 = k
    · subst h1
      simp [setfield, assoc_find, hne2]
    · by_cases h3 : k1 = k2
      · subst h3
        simp [setfield, assoc_find, h1]
      · simp [setfield, assoc_find, h1, h3, ih]

theorem assoc_find_of_mem_nodup {α : Type} (k : String) (v : α) (m : List (String × α))
    (hnd : (m.map Prod.fst).Nodup) (hmem : (k, v) ∈ m) : assoc_find k m = some v := by
  induction m with
  | nil => simp at hmem
  | cons t m ih =>
    obtain ⟨k1, v1⟩ := t
    simp only [List.map_cons, List.nodup_cons] at hnd
    rcases List.mem_cons.mp hmem with h | h
    · cases h
      simp [assoc_find]
    · have hk : k ∈ m.map Prod.fst := List.mem_map.mpr ⟨(k, v), h, rfl⟩
      have h1 : ¬ k1 = k := fun e => hnd.1 (e ▸ hk)
      simp [assoc_find, h1, ih hnd.2 h]

theorem assoc_find_eq_none_of_not_mem {α : Type} (k : String) (m : List (String × α))
    (hk : k ∉ m.map Prod.fst) : assoc_find k m = none := by
  induction m with
  | nil => rfl
  | cons t m ih =>
    obtain ⟨k1, v1⟩ := t
    simp only [List.map_cons, List.mem_cons, not_or] at hk
    have h1 : ¬ k1 = k := fun e => hk.1 e.symm
    simp [assoc_find, h1, ih hk.2]

/-! ## Observers under callbacks that leave the widget alone -/

theorem foldl_feval_inert (rt : runtime) (hcb : ∀ cb w, rt.feval cb w = w)
    (a : octave_value → action) (l : List octave_value) (w : xwidget) :
    l.foldl (fun w callback => rt.feval callback { w with trace := w.trace ++ [a callback] }) w
      = { w with trace := w.trace ++ l.map a } := by
  induction l generalizing w with
  | nil => simp
  | cons c l ih =>
    rw [List.foldl_cons, hcb, ih]
    simp

theorem notify_backend_inert (rt : runtime) (hcb : ∀ cb w, rt.feval cb w = w)
    (w : xwidget) (pname : String) :
    w.notify_backend rt pname
      = { w with trace := w.trace ++ (w.observers pname).map (action.feval_observer pname) } := by
  unfold xwidget.notify_backend xwidget.observers
  by_cases hc : assoc_count pname w.m_observerCallbacks = true
  · rw [if_pos hc]
    exact foldl_feval_inert rt hcb (action.feval_observer pname) _ w
  · rw [if_neg hc]
    have : assoc_find pname w.m_observerCallbacks = none := by
      cases h : assoc_find pname w.m_observerCallbacks with
      | none => rfl
      | some v => simp [assoc_count, h] at hc
    simp [this]

theorem patches_append (s t : List action) : patches (s ++ t) = patches s ++ patches t := by
  simp [patches]

theorem foldl_feval_patches (rt : runtime)
    (hcb : ∀ cb w, patches (rt.feval cb w).trace = patches w.trace)
    (a : octave_value → action) (ha : ∀ c, (a c).is_patch = false)
    (l : List octave_value) (w : xwidget) :
    patches (l.foldl
        (fun w callback => rt.feval callback { w with trace := w.trace ++ [a callback] }) w).trace
      = patches w.trace := by
  induction l generalizing w with
  | nil => rfl
  | cons c l ih =>
    rw [List.foldl_cons, ih, hcb]
    simp [patches, ha]

theorem notify_backend_patches (rt : runtime)
    (hcb : ∀ cb w, patches (rt.feval cb w).trace = patches w.trace)
    (w : xwidget) (pname : String) :
    patches (w.notify_backend rt pname).trace = patches w.trace := by
  unfold xwidget.notify_backend
  by_cases hc : assoc_count pname w.m_observerCallbacks = true
  · rw [if_pos hc]
    exact foldl_feval_patches rt hcb (action.feval_observer pname) (fun _ => rfl) _ w
  · rw [if_neg hc]

theorem apply_patch_patches (rt : runtime)
    (hcb : ∀ cb w, patches (rt.feval cb w).trace = patches w.trace)
    (w : xwidget) (state : json) (buffers : buffer_sequence) :
    patches (w.apply_patch rt state buffers).trace = patches w.trace := by
  unfold xwidget.apply_patch
  generalize hP : w.cls.property_map = P
  have key : ∀ (l : List (String × cdef_property)) (w : xwidget),
      patches (l.foldl
        (fun w property_tuple =>
          if assoc_count property_tuple.1 P && is_sync_property property_tuple.2
              && state.contains property_tuple.1 then
            xwidget.notify_backend rt
              (w.handle_cdef_object_put property_tuple.1
                (xwidgets_deserialize .undefined (state.get property_tuple.1) buffers))
              property_tuple.1
          else w) w).trace = patches w.trace := by
    intro l
    induction l with
    | nil => intro w; rfl
    | cons t l ih =>
      intro w
      rw [List.foldl_cons, ih]
      split
      · rw [notify_backend_patches rt hcb]
        rfl
      · rfl
  exact key P w

/-! ## `apply_patch` under callbacks that leave the widget alone -/

/-- One turn of the loop of `apply_patch` when the callbacks leave the widget
alone: the field is written and the calls of its observers are recorded. -/
theorem apply_patch_step_inert (rt : runtime) (hcb : ∀ cb w, rt.feval cb w = w)
    (w : xwidget) (name : String) (value : octave_value) :
    xwidget.notify_backend rt (w.handle_cdef_object_put name value) name
      = { w with
          m_map := setfield name value w.m_map
          trace := w.trace ++ (w.observers name).map (action.feval_observer name) } := by
  rw [notify_backend_inert rt hcb]
  rfl

theorem apply_patch_eq_loop (rt : runtime) (w : xwidget) (state : json)
    (buffers : buffer_sequence) :
    w.apply_patch rt state buffers
      = apply_patch_loop rt w.cls.property_map state buffers w.cls.property_map w := rfl

theorem apply_patch_loop_cons (rt : runtime) (P : List (String × cdef_property)) (state : json)
    (buffers : buffer_sequence) (t : String × cdef_property) (l : List (String × cdef_property))
    (w : xwidget) :
    apply_patch_loop rt P state buffers (t :: l) w
      = apply_patch_loop rt P state buffers l
          (if assoc_count t.1 P && is_sync_property t.2 && state.contains t.1 then
            xwidget.notify_backend rt
              (w.handle_cdef_object_put t.1
                (xwidgets_deserialize .undefined (state.get t.1) buffers)) t.1
          else w) := rfl

theorem apply_patch_loop_observers (rt : runtime) (hcb : ∀ cb w, rt.feval cb w = w)
    (P : List (String × cdef_property)) (state : json) (buffers : buffer_sequence)
    (l : List (String × cdef_property)) (w : xwidget) (g : String) :
    (apply_patch_loop rt P state buffers l w).observers g = w.observers g := by
  induction l generalizing w with
  | nil => rfl
  | cons t l ih =>
    rw [apply_patch_loop_cons, ih]
    split
    · rw [apply_patch_step_inert rt hcb]
      rfl
    · rfl

theorem serialize_state_eq_loop (w : xwidget) (h : host) (state : json) :
    w.serialize_state h state = serialize_state_loop w h w.cls.property_map state := rfl

theorem serialize_state_loop_cons (w : xwidget) (h : host) (t : String × cdef_property)
    (l : List (String × cdef_property)) (state : json) :
    serialize_state_loop w h (t :: l) state
      = serialize_state_loop w h l
          (if is_sync_property t.2 then state.update t.1 (xwidgets_serialize h (w.get t.1))
           else state) := rfl

theorem json_contains_eq (j : json) (k : String) : j.contains k = (j.find k).isSome := by
  cases j <;> rfl

theorem json_find_update_ne (j : json) (k k2 : String) (g : json → json) (hne : k2 ≠ k) :
    (j.update k g).find k2 = j.find k2 := by
  have hne2 : ¬ k = k2 := fun h => hne h.symm
  cases j <;> simp [json.update, json.find, assoc_find_std_map_set_ne _ _ _ _ hne]
  simp [std_map_set, assoc_find, hne2]

theorem json_find_update_self (j : json) (k : String) (g : json → json)
    (hj : j.is_null = true ∨ j.is_object = true) :
    (j.update k g).find k = some (g ((j.find k).getD .null)) := by
  cases j <;> simp [json.is_null, json.is_object] at hj
    <;> simp [json.update, json.find, assoc_find_std_map_set_self, assoc_find]

theorem json_update_kind (j : json) (k : String) (g : json → json)
    (hj : j.is_null = true ∨ j.is_object = true) :
    (j.update k g).is_null = true ∨ (j.update k g).is_object = true := by
  cases j <;> simp [json.is_null, json.is_object] at hj
    <;> simp [json.update, json.is_object]

/-- A name none of whose entries in `l` is synchronized is left as it was in
the document. -/
theorem serialize_state_loop_find_skip (w : xwidget) (h : host) (k : String)
    (l : List (String × cdef_property)) (state : json)
    (hskip : ∀ p, (k, p) ∈ l → is_sync_property p = false) :
    (serialize_state_loop w h l state).find k = state.find k := by
  induction l generalizing state with
  | nil => rfl
  | cons t l ih =>
    rw [serialize_state_loop_cons, ih _ (fun p hp => hskip p (List.mem_cons_of_mem _ hp))]
    split
    · rename_i hs
      have hne : k ≠ t.1 := by
        intro e
        have := hskip t.2 (by rw [e]; exact List.mem_cons_self _ _)
        rw [this] at hs
        exact absurd hs (by simp)
      exact json_find_update_ne _ _ _ _ hne
    · rfl

/-- A synchronized property of `l` that the document does not hold yet ends
up in it with the encoding of its current value. -/
theorem serialize_state_loop_find_applied (w : xwidget) (h : host) (k : String)
    (p : cdef_property) (l : List (String × cdef_property)) (state : json)
    (hnd : (l.map Prod.fst).Nodup) (hmem : (k, p) ∈ l) (hs : is_sync_property p = true)
    (hj : state.is_null = true ∨ state.is_object = true) (hnone : state.find k = none) :
    (serialize_state_loop w h l state).find k
      = some (xwidgets_serialize h (w.get k) .null) := by
  induction l generalizing state with
  | nil => simp at hmem
  | cons t l ih =>
    simp only [List.map_cons, List.nodup_cons] at hnd
    rw [serialize_state_loop_cons]
    rcases List.mem_cons.mp hmem with hm | hm
    · subst hm
      rw [if_pos hs, serialize_state_loop_find_skip w h k l _
          (fun q hq => absurd (List.mem_map.mpr ⟨(k, q), hq, rfl⟩) hnd.1),
        json_find_update_self _ _ _ hj, hnone]
      rfl
    · have hne : k ≠ t.1 := by
        intro e
        exact hnd.1 (e ▸ List.mem_map.mpr ⟨(k, p), hm, rfl⟩)
      apply ih _ hnd.2 hm
      · split
        · exact json_update_kind _ _ _ hj
        · exact hj
      · split
        · rw [json_find_update_ne _ _ _ _ hne, hnone]
        · exact hnone

/-! ## Fields that `apply_patch` passes over -/

theorem foldl_feval_get (rt : runtime) (f : String)
    (hcb : ∀ cb w, (rt.feval cb w).get f = w.get f)
    (a : octave_value → action) (l : List octave_value) (w : xwidget) :
    (l.foldl
        (fun w callback => rt.feval callback { w with trace := w.trace ++ [a callback] }) w).get f
      = w.get f := by
  induction l generalizing w with
  | nil => rfl
  | cons c l ih =>
    rw [List.foldl_cons, ih, hcb]
    rfl

theorem notify_backend_get (rt : runtime) (f : String)
    (hcb : ∀ cb w, (rt.feval cb w).get f = w.get f)
    (w : xwidget) (pname : String) :
    (w.notify_backend rt pname).get f = w.get f := by
  unfold xwidget.notify_backend
  split
  · exact foldl_feval_get rt f hcb (action.feval_observer pname) _ w
  · rfl

/-- A field none of whose entries in `l` is synchronized keeps its value
through the loop of `apply_patch`, when no callback writes it. -/
theorem apply_patch_loop_get_unsynced (rt : runtime) (f : String)
    (hcb : ∀ cb w, (rt.feval cb w).get f = w.get f)
    (P : List (String × cdef_property)) (state : json) (buffers : buffer_sequence)
    (l : List (String × cdef_property)) (w : xwidget)
    (hskip : ∀ p, (f, p) ∈ l → is_sync_property p = false) :
    (apply_patch_loop rt P state buffers l w).get f = w.get f := by
  induction l generalizing w with
  | nil => rfl
  | cons t l ih =>
    rw [apply_patch_loop_cons, ih _ (fun p hp => hskip p (List.mem_cons_of_mem _ hp))]
    split
    · rename_i hc
      have hne : f ≠ t.1 := by
        intro e
        have := hskip t.2 (by rw [e]; exact List.mem_cons_self _ _)
        rw [this] at hc
        exact absurd hc (by simp)
      rw [notify_backend_get rt f hcb]
      simp [xwidget.get, xwidget.handle_cdef_object_put, assoc_find_setfield_ne _ _ _ _ hne]
    · rfl

theorem mem_unique_of_nodup {α : Type} (k : String) (v v2 : α) (m : List (String × α))
    (hnd : (m.map Prod.fst).Nodup) (h1 : (k, v) ∈ m) (h2 : (k, v2) ∈ m) : v2 = v := by
  have a := assoc_find_of_mem_nodup k v m hnd h1
  have c := assoc_find_of_mem_nodup k v2 m hnd h2
  rw [a] at c
  exact (Option.some.inj c).symm

theorem not_sync_of_absent_or_false (p : cdef_property)
    (hp : p.Sync = none ∨ p.Sync = some false) : is_sync_property p = false := by
  rcases hp with h | h <;> simp [is_sync_property, h]

theorem apply_patch_loop_congr (rt : runtime) (P : List (String × cdef_property))
    (D1 D2 : json) (b : buffer_sequence) (l : List (String × cdef_property)) (w : xwidget)
    (h : ∀ t ∈ l, D1.find t.1 = D2.find t.1) :
    apply_patch_loop rt P D1 b l w = apply_patch_loop rt P D2 b l w := by
  induction l generalizing w with
  | nil => rfl
  | cons t l ih =>
    have ht := h t (List.mem_cons_self _ _)
    rw [apply_patch_loop_cons, apply_patch_loop_cons,
      ih _ (fun t2 h2 => h t2 (List.mem_cons_of_mem _ h2))]
    simp only [json_contains_eq, json.get, ht]

theorem apply_patch_loop_absent (rt : runtime) (P : List (String × cdef_property))
    (D : json) (b : buffer_sequence) (l : List (String × cdef_property)) (w : xwidget)
    (h : ∀ t ∈ l, D.contains t.1 = false) :
    apply_patch_loop rt P D b l w = w := by
  induction l generalizing w with
  | nil => rfl
  | cons t l ih =>
    have ht := h t (List.mem_cons_self _ _)
    rw [apply_patch_loop_cons, ih _ (fun t2 h2 => h t2 (List.mem_cons_of_mem _ h2))]
    simp [ht]

/-! ## Values and fragments that the codec does not take -/

theorem xwidgets_serialize_no_rule (h : host) (ov : octave_value) (j : json)
    (hv : ov.no_encoding_rule h = true) : xwidgets_serialize h ov j = j := by
  cases ov <;>
    simp [octave_value.no_encoding_rule, octave_value.is_bool_scalar,
      octave_value.is_real_scalar, octave_value.isinteger, octave_value.is_scalar_type,
      octave_value.is_string, octave_value.is_classdef_object, octave_value.iscell,
      octave_value.isnull] at hv <;>
    simp [xwidgets_serialize, octave_value.is_bool_scalar,
      octave_value.is_real_scalar, octave_value.isinteger, octave_value.is_scalar_type,
      octave_value.is_string, octave_value.is_classdef_object, octave_value.iscell,
      octave_value.isnull]

theorem push_back_callback_self (key : String) (fcn : octave_value)
    (m : List (String × List octave_value)) :
    (assoc_find key (push_back_callback key fcn m)).getD []
      = (assoc_find key m).getD [] ++ [fcn] := by
  simp [push_back_callback, assoc_find_std_map_set_self]

theorem push_back_callback_ne (key key2 : String) (fcn : octave_value)
    (m : List (String × List octave_value)) (hne : key2 ≠ key) :
    assoc_find key2 (push_back_callback key fcn m) = assoc_find key2 m := by
  simp [push_back_callback, assoc_find_std_map_set_ne _ _ _ _ hne]

theorem Fobserve_handle (w : xwidget) (n : String) (c : octave_value)
    (hc : c.is_function_handle = true) :
    Fobserve w (.string n) c
      = ({ w with m_observerCallbacks := push_back_callback n c w.m_observerCallbacks },
          .ok []) := by
  simp [Fobserve, octave_value.xstring_value, octave_value.is_string,
    octave_value.string_value, hc]

theorem Fon_handle (w : xwidget) (n : String) (c : octave_value)
    (hc : c.is_function_handle = true) :
    Fon w (.string n) c
      = ({ w with m_eventCallbacks := push_back_callback n c w.m_eventCallbacks }, .ok []) := by
  simp [Fon, octave_value.xstring_value, octave_value.is_string,
    octave_value.string_value, hc]

theorem xwidgets_serialize_matrix_like_array (h : host) (cv : List octave_value)
    (acc : List json) :
    xwidgets_serialize_matrix_like h cv (.array acc)
      = .array (acc ++ cv.map (fun e => xwidgets_serialize h e .null)) := by
  induction cv generalizing acc with
  | nil => simp [xwidgets_serialize_matrix_like]
  | cons e cv ih => simp [xwidgets_serialize_matrix_like, json.push_back, ih]

theorem xwidgets_serialize_matrix_like_string_array (mv : List String) (acc : List json) :
    xwidgets_serialize_matrix_like_string mv (.array acc)
      = .array (acc ++ mv.map json.string) := by
  induction mv generalizing acc with
  | nil => simp [xwidgets_serialize_matrix_like_string]
  | cons e mv ih => simp [xwidgets_serialize_matrix_like_string, json.push_back, ih]

theorem xwidgets_serialize_string (h : host) (s : String) (j : json) :
    xwidgets_serialize h (.string s) j = .string s := by
  simp [xwidgets_serialize, octave_value.is_bool_scalar, octave_value.is_real_scalar,
    octave_value.isinteger, octave_value.is_scalar_type, octave_value.is_string,
    octave_value.string_value]

/-! ## The walk of `apply_patch` through the property map -/

/-- C1 (no-echo): when the callbacks that are invoked emit no patch themselves,
`apply_patch` leaves the sequence of outbound patches as it was, and so does
handling an inbound `"update"` message, which returns the widget after the
patch, the held message set before and cleared after. -/
theorem apply_patch_no_echo (rt : runtime)
    (hcb : ∀ cb w, patches (rt.feval cb w).trace = patches w.trace)
    (w : xwidget) (D : json) (b : buffer_sequence) :
    patches (w.apply_patch rt D b).trace = patches w.trace
    ∧ ∀ (message : xmessage) (data state buffer_paths : json),
        message.content.const_ref "data" = .ok data →
        data.const_ref "method" = .ok (.string "update") →
        data.const_ref "state" = .ok state →
        data.const_ref "buffer_paths" = .ok buffer_paths →
        w.handle_message rt message
            = .ok { xwidget.apply_patch rt { w with hold := some message }
                      (rt.insert_buffer_paths state buffer_paths) message.buffers
                    with hold := none }
          ∧ patches (xwidget.apply_patch rt { w with hold := some message }
                (rt.insert_buffer_paths state buffer_paths) message.buffers).trace
              = patches w.trace := by
  refine ⟨apply_patch_patches rt hcb w D b, ?_⟩
  intro message data state buffer_paths h1 h2 h3 h4
  refine ⟨?_, apply_patch_patches rt hcb { w with hold := some message } _ _⟩
  simp [xwidget.handle_message, h1, h2, h3, h4, json.to_std_string]

/-- C1 at the example widget, with callbacks that write the field `label`
behind the back of the widget and so emit no patch: the patch
`{"value": 7}`, applied directly or through an `"update"` message, sends
nothing. -/
theorem apply_patch_no_echo_witness :
    (∀ cb w, patches (relabelling_runtime.feval cb w).trace = patches w.trace)
    ∧ patches (slider.apply_patch relabelling_runtime
          (.object [("value", .number_unsigned 7)]) []).trace = []
    ∧ slider.handle_message relabelling_runtime update_message
        = .ok { slider with
                m_map := [("label", .string "seen"), ("secret", .bool true),
                  ("value", .int .int64 7)]
                trace := [action.feval_observer "value" (.fcn_handle "on_value"),
                  action.feval_observer "value" (.fcn_handle "log")] } :=
  ⟨fun _ _ => rfl,
    (apply_patch_no_echo relabelling_runtime (fun _ _ => rfl) slider
      (.object [("value", .number_unsigned 7)]) []).1,
    ((apply_patch_no_echo relabelling_runtime (fun _ _ => rfl) slider .null []).2 update_message
      (.object [("buffer_paths", .array []), ("method", .string "update"),
        ("state", .object [("value", .number_unsigned 7)])])
      (.object [("value", .number_unsigned 7)]) (.array []) rfl rfl rfl rfl).1⟩

/-- C4 (writes during construction are silent): on a widget that is not yet
fully constructed, `put (f, v)` is the plain write to the field table, for
every field name and value and whatever the callbacks would do: the trace is
left as it was, so no patch is emitted and no observer is invoked. -/
theorem put_during_construction_silent (rt : runtime) (w : xwidget) (f : String)
    (v : octave_value) (hc : w.is_constructed = false) :
    w.put rt f v = w.handle_cdef_object_put f v
    ∧ (w.put rt f v).trace = w.trace := by
  have hc2 : (w.handle_cdef_object_put f v).is_constructed = false := hc
  have : w.put rt f v = w.handle_cdef_object_put f v := by
    unfold xwidget.put
    simp [hc2]
  rw [this]
  exact ⟨rfl, rfl⟩

/-- C4 at the example widget under construction: writing 5 to `value` only writes the field table. -/
theorem put_during_construction_silent_witness :
    slider_under_construction.is_constructed = false
    ∧ slider_under_construction.put quiet_runtime "value" (.scalar (Double.of_int 5))
        = slider_under_construction.handle_cdef_object_put "value" (.scalar (Double.of_int 5))
    ∧ (slider_under_construction.put quiet_runtime "value" (.scalar (Double.of_int 5))).trace
        = [] :=
  ⟨rfl,
    put_during_construction_silent quiet_runtime slider_under_construction "value"
      (.scalar (Double.of_int 5)) rfl⟩

/-- C5 (filter correctness): for a field `f` of the class whose `Sync`
annotation is absent or false (the property map having one entry per name),
`f` is not a key of the document `serialize_state` produces, and for every
document `D`, also one with the key `f`, `apply_patch` leaves the value of
`f` in the field table as it was, as long as no callback writes `f`. -/
theorem unsynced_field_filtered (w : xwidget) (h : host) (f : String) (p : cdef_property)
    (hnd : (w.cls.property_map.map Prod.fst).Nodup)
    (hf : (f, p) ∈ w.cls.property_map)
    (hp : p.Sync = none ∨ p.Sync = some false) :
    (w.serialize_state h .null).contains f = false
    ∧ ∀ (rt : runtime) (D : json) (b : buffer_sequence),
        (∀ cb w1, (rt.feval cb w1).get f = w1.get f) →
        (w.apply_patch rt D b).get f = w.get f := by
  have hskip : ∀ q, (f, q) ∈ w.cls.property_map → is_sync_property q = false := by
    intro q hq
    rw [mem_unique_of_nodup f p q _ hnd hf hq]
    exact not_sync_of_absent_or_false p hp
  constructor
  · rw [json_contains_eq, serialize_state_eq_loop, serialize_state_loop_find_skip w h f _ _ hskip]
    rfl
  · intro rt D b hcb
    rw [apply_patch_eq_loop]
    exact apply_patch_loop_get_unsynced rt f hcb _ D b _ w hskip

/-- C5 at the example widget, with callbacks that write the field `label`:
`secret` is no key of the snapshot and keeps its value through a patch that
names it. -/
theorem unsynced_field_filtered_witness :
    (slider.serialize_state octave .null).contains "secret" = false
    ∧ (∀ cb w1, (relabelling_runtime.feval cb w1).get "secret" = w1.get "secret")
    ∧ (slider.apply_patch relabelling_runtime
          (.object [("secret", .boolean false), ("value", .number_unsigned 7)]) []).get "secret"
        = .bool true :=
  have hcb : ∀ cb w1, (relabelling_runtime.feval cb w1).get "secret" = w1.get "secret" :=
    fun _ w1 => by
      show (assoc_find "secret" (setfield "label" (octave_value.string "seen") w1.m_map)).getD
        octave_value.undefined = w1.get "secret"
      rw [assoc_find_setfield_ne "label" "secret" _ w1.m_map (by decide)]
      rfl
  ⟨(unsynced_field_filtered slider octave "secret" ⟨none⟩ (by decide) (by decide) (Or.inl rfl)).1,
    hcb,
    (unsynced_field_filtered slider octave "secret" ⟨none⟩ (by decide) (by decide) (Or.inl rfl)).2
      relabelling_runtime
      (.object [("secret", .boolean false), ("value", .number_unsigned 7)]) [] hcb⟩

/-- C6 (unknown-field tolerance): for every document `D` and every key `k`
that names no property of the class, `apply_patch` on `D` with an item
bound to `k` returns, and returns the same widget (field table, trace of
observer calls and all) as `apply_patch` on `D`; and a document all of
whose keys name no property of the class leaves the widget as it was. -/
theorem apply_patch_ignores_unknown_key (rt : runtime) (w : xwidget) (D : json)
    (k : String) (v : json) (b : buffer_sequence)
    (hk : k ∉ w.cls.property_map.map Prod.fst) :
    w.apply_patch rt (D.update k (fun _ => v)) b = w.apply_patch rt D b
    ∧ ∀ D2 : json, (∀ key, D2.contains key = true → key ∉ w.cls.property_map.map Prod.fst) →
        w.apply_patch rt D2 b = w := by
  constructor
  · rw [apply_patch_eq_loop, apply_patch_eq_loop]
    apply apply_patch_loop_congr
    intro t ht
    apply json_find_update_ne
    intro e
    exact hk (e ▸ List.mem_map.mpr ⟨t, ht, rfl⟩)
  · intro D2 hD2
    rw [apply_patch_eq_loop]
    apply apply_patch_loop_absent
    intro t ht
    cases hc : D2.contains t.1 with
    | false => rfl
    | true => exact absurd (List.mem_map.mpr ⟨t, ht, rfl⟩) (hD2 t.1 hc)

/-- C6 at the example widget: the unknown key `colour` changes nothing. -/
theorem apply_patch_ignores_unknown_key_witness :
    "colour" ∉ slider.cls.property_map.map Prod.fst
    ∧ slider.apply_patch quiet_runtime
          (.object [("colour", .string "red"), ("value", .number_unsigned 7)]) []
        = slider.apply_patch quiet_runtime (.object [("value", .number_unsigned 7)]) []
    ∧ slider.apply_patch quiet_runtime (.object [("colour", .string "red")]) [] = slider :=
  ⟨by decide,
    (apply_patch_ignores_unknown_key quiet_runtime slider
      (.object [("value", .number_unsigned 7)]) "colour" (.string "red") [] (by decide)).1,
    (apply_patch_ignores_unknown_key quiet_runtime slider
      (.object [("value", .number_unsigned 7)]) "colour" (.string "red") [] (by decide)).2
      (.object [("colour", .string "red")]) (by
        intro key hkey
        have : key = "colour" := by
          by_contra hne
          have h2 : ¬ "colour" = key := fun e => hne e.symm
          simp [json.contains, assoc_count, assoc_find, h2] at hkey
        subst this
        decide)⟩

/-- C7 (request_state returns the full snapshot): handling an inbound
`"request_state"` message returns the widget with exactly one action added
to its trace, the outbound patch `serialize_state` builds, and nothing else
changed; when the property map has one entry per name, the keys of that
document are exactly the synchronized properties of the class, and each maps
to the encoding of the current value of its field. -/
theorem request_state_sends_snapshot (rt : runtime) (w : xwidget) (message : xmessage)
    (data : json)
    (hdata : message.content.const_ref "data" = .ok data)
    (hmethod : data.const_ref "method" = .ok (.string "request_state"))
    (hnd : (w.cls.property_map.map Prod.fst).Nodup) :
    w.handle_message rt message
        = .ok { w with trace := w.trace ++ [action.send_patch (w.serialize_state rt.host .null) []] }
    ∧ (∀ k, (w.serialize_state rt.host .null).contains k = true
          ↔ ∃ p, (k, p) ∈ w.cls.property_map ∧ is_sync_property p = true)
    ∧ ∀ k p, (k, p) ∈ w.cls.property_map → is_sync_property p = true →
        (w.serialize_state rt.host .null).find k = some (xwidgets_serialize rt.host (w.get k) .null) := by
  have happ : ∀ k p, (k, p) ∈ w.cls.property_map → is_sync_property p = true →
      (w.serialize_state rt.host .null).find k = some (xwidgets_serialize rt.host (w.get k) .null) := by
    intro k p hk hs
    rw [serialize_state_eq_loop]
    exact serialize_state_loop_find_applied w rt.host k p _ _ hnd hk hs (Or.inl rfl) rfl
  refine ⟨?_, ?_, happ⟩
  · simp [xwidget.handle_message, hdata, hmethod, json.to_std_string, xwidget.send_patch]
  · intro k
    constructor
    · intro hc
      by_contra hno
      have hskip : ∀ q, (k, q) ∈ w.cls.property_map → is_sync_property q = false := by
        intro q hq
        cases hb : is_sync_property q with
        | false => rfl
        | true => exact absurd ⟨q, hq, hb⟩ hno
      rw [json_contains_eq, serialize_state_eq_loop,
        serialize_state_loop_find_skip w rt.host k _ _ hskip] at hc
      exact absurd hc (by simp [json.find])
    · rintro ⟨p, hk, hs⟩
      rw [json_contains_eq, happ k p hk hs]
      rfl

/-- C7 at the example widget: `"request_state"` sends exactly `{"label": "x", "value": 7}`. -/
theorem request_state_sends_snapshot_witness :
    slider.handle_message quiet_runtime request_state_message
        = .ok { slider with
                trace := [action.send_patch
                  (.object [("label", .string "x"),
                    ("value", .number_float (Double.of_int 7))]) []] }
    ∧ ((slider.serialize_state octave .null).contains "secret" = true
          ↔ ∃ p, ("secret", p) ∈ slider.cls.property_map ∧ is_sync_property p = true) :=
  ⟨(request_state_sends_snapshot quiet_runtime slider request_state_message
      (.object [("method", .string "request_state")]) rfl rfl (by decide)).1,
    (request_state_sends_snapshot quiet_runtime slider request_state_message
      (.object [("method", .string "request_state")]) rfl rfl (by decide)).2.1 "secret"⟩

/-- C9, as stated, fails: the widget whose synchronized field `value` holds a
real matrix, a value without encoding, still has the key `value` in its
snapshot, bound to `null`, and a local write of that matrix sends the
document `{"value": null}`. -/
theorem snapshot_keeps_key_of_unencodable_field :
    (slider_with_matrix.get "value").no_encoding_rule octave = true
    ∧ (slider_with_matrix.serialize_state octave .null).contains "value" = true
    ∧ slider_with_matrix.serialize_state octave .null
        = .object [("label", .string "x"), ("value", .null)]
    ∧ (slider.notify_frontend octave "value" (.matrix [Double.of_int 1, Double.of_int 2])).trace
        = [action.send_patch (.object [("value", .null)]) []] := by
  refine ⟨rfl, rfl, rfl, rfl⟩

/-- C9, amended: a synchronized field whose current value no encoding rule
matches is a key of the snapshot, bound to `null`, and the document a local
write of such a value sends is `{f: null}`; every synchronized field is in
the snapshot with the encoding of its value as usual. -/
theorem unencodable_field_is_null_in_document (w : xwidget) (h : host) (f : String)
    (p : cdef_property)
    (hnd : (w.cls.property_map.map Prod.fst).Nodup)
    (hf : (f, p) ∈ w.cls.property_map)
    (hs : is_sync_property p = true)
    (hv : (w.get f).no_encoding_rule h = true) :
    (w.serialize_state h .null).find f = some .null
    ∧ (∀ g q, (g, q) ∈ w.cls.property_map → is_sync_property q = true →
        (w.serialize_state h .null).find g = some (xwidgets_serialize h (w.get g) .null))
    ∧ ∀ v : octave_value, v.no_encoding_rule h = true →
        (w.notify_frontend h f v).trace
          = w.trace ++ [action.send_patch (.object [(f, .null)]) []] := by
  have happ : ∀ g q, (g, q) ∈ w.cls.property_map → is_sync_property q = true →
      (w.serialize_state h .null).find g = some (xwidgets_serialize h (w.get g) .null) := by
    intro g q hg hq
    rw [serialize_state_eq_loop]
    exact serialize_state_loop_find_applied w h g q _ _ hnd hg hq (Or.inl rfl) rfl
  refine ⟨?_, happ, ?_⟩
  · rw [happ f p hf hs, xwidgets_serialize_no_rule _ _ _ hv]
  · intro v hv2
    simp [xwidget.notify_frontend, xwidget.send_patch, json.update, std_map_set,
      xwidgets_serialize_no_rule _ _ _ hv2]

/-- C9, amended, at the example widget holding a matrix in `value`. -/
theorem unencodable_field_is_null_in_document_witness :
    (slider_with_matrix.get "value").no_encoding_rule octave = true
    ∧ (slider_with_matrix.serialize_state octave .null).find "value" = some .null
    ∧ (slider_with_matrix.serialize_state octave .null).find "label" = some (.string "x") :=
  ⟨rfl,
    (unencodable_field_is_null_in_document slider_with_matrix octave "value" ⟨some true⟩
      (by decide) (by decide) rfl rfl).1,
    (unencodable_field_is_null_in_document slider_with_matrix octave "value" ⟨some true⟩
      (by decide) (by decide) rfl rfl).2.1 "label" ⟨some true⟩ (by decide) rfl⟩

/-- C13 (custom-handler precedence): on a widget whose class defines the
method `handle_custom_message`, handling a custom payload `p` is one call
of that method on the decoded payload and the widget, and nothing else, also
through `handle_message` on a `"custom"` message with the content `p`;
when the method leaves the widget alone the trace grows by exactly that one
call, so no event callback is called, whatever `p` carries. -/
theorem custom_method_takes_precedence (rt : runtime) (w : xwidget) (p : json)
    (hm : w.cls.find_method "handle_custom_message" = true) :
    w.handle_custom_message rt p
        = .ok (rt.execute "handle_custom_message" (xwidgets_deserialize .undefined p [])
            { w with
              trace := w.trace
                ++ [action.execute "handle_custom_message"
                      (xwidgets_deserialize .undefined p [])] })
    ∧ (∀ (message : xmessage) (data : json),
        message.content.const_ref "data" = .ok data →
        data.const_ref "method" = .ok (.string "custom") →
        data.find "content" = some p →
        w.handle_message rt message = w.handle_custom_message rt p)
    ∧ ((∀ name message w1, rt.execute name message w1 = w1) →
        w.handle_custom_message rt p
          = .ok { w with
                  trace := w.trace
                    ++ [action.execute "handle_custom_message"
                          (xwidgets_deserialize .undefined p [])] }) := by
  have hrun : w.handle_custom_message rt p
      = .ok (rt.execute "handle_custom_message" (xwidgets_deserialize .undefined p [])
          { w with
            trace := w.trace
              ++ [action.execute "handle_custom_message"
                    (xwidgets_deserialize .undefined p [])] }) := by
    simp [xwidget.handle_custom_message, hm]
  refine ⟨hrun, ?_, ?_⟩
  · intro message data hdata hmethod hcontent
    simp [xwidget.handle_message, hdata, hmethod, json.to_std_string, hcontent]
  · intro hex
    rw [hrun, hex]

/-- C13 at the example widget of class `Button`, which has a callback of
`click`: the payload `{"event": "click"}` goes to the method, decoded to a
struct, and the callback is not called. -/
theorem custom_method_takes_precedence_witness :
    button.cls.find_method "handle_custom_message" = true
    ∧ button.event_callbacks "click" = [.fcn_handle "clicked"]
    ∧ button.handle_message quiet_runtime click_message
        = .ok { button with
                trace := [action.execute "handle_custom_message"
                  (.map [("event", .string "click")])] } :=
  ⟨rfl, rfl,
    ((custom_method_takes_precedence quiet_runtime button
        (.object [("event", .string "click")]) rfl).2.1 click_message
      (.object [("content", .object [("event", .string "click")]),
        ("method", .string "custom")]) rfl rfl rfl).trans
    ((custom_method_takes_precedence quiet_runtime button
        (.object [("event", .string "click")]) rfl).2.2 (fun _ _ _ => rfl))⟩

/-- C14 (unknown methods are ignored): on an inbound message whose method
name is none of `"update"`, `"request_state"` and `"custom"`, and on a
`"custom"` message without content, `handle_message` returns the widget as
it was: field table, callback tables and trace unchanged. -/
theorem unknown_method_is_ignored (rt : runtime) (w : xwidget) (message : xmessage)
    (data : json) (method : String)
    (hdata : message.content.const_ref "data" = .ok data)
    (hmethod : data.const_ref "method" = .ok (.string method)) :
    (method ≠ "update" → method ≠ "request_state" → method ≠ "custom" →
        w.handle_message rt message = .ok w)
    ∧ (method = "custom" → data.find "content" = none →
        w.handle_message rt message = .ok w) := by
  constructor
  · intro h1 h2 h3
    simp [xwidget.handle_message, hdata, hmethod, json.to_std_string, h1, h2, h3]
  · intro h1 h2
    subst h1
    simp [xwidget.handle_message, hdata, hmethod, json.to_std_string, h2]

/-- C14 at the example widget: the method `"echo"` and a `"custom"` message
without content both leave the widget as it was. -/
theorem unknown_method_is_ignored_witness :
    slider.handle_message quiet_runtime echo_message = .ok slider
    ∧ slider.handle_message quiet_runtime empty_custom_message = .ok slider :=
  ⟨(unknown_method_is_ignored quiet_runtime slider echo_message
      (.object [("method", .string "echo")]) "echo" rfl rfl).1
      (by decide) (by decide) (by decide),
    (unknown_method_is_ignored quiet_runtime slider empty_custom_message
      (.object [("method", .string "custom")]) "custom" rfl rfl).2 rfl rfl⟩

/-- C15 (object-reference encoding is one-directional): a reference to a
widget, an instance of `__xwidget_internal__` with identifier `i`, is
encoded as the string `IPY_MODEL_` followed by `i`, whatever the document
held before; decoding that string gives the same string as a plain string
value, which is no classdef object. -/
theorem object_reference_encodes_one_way (h : host) (classes : List String) (i : String)
    (ov : octave_value) (j : json) (b : buffer_sequence)
    (hw : "__xwidget_internal__" ∈ classes) :
    xwidgets_serialize h (.classdef classes i) j = .string ("IPY_MODEL_" ++ i)
    ∧ xwidgets_deserialize ov (xwidgets_serialize h (.classdef classes i) j) b
        = .string ("IPY_MODEL_" ++ i)
    ∧ (xwidgets_deserialize ov (xwidgets_serialize h (.classdef classes i) j) b).is_classdef_object
        = false := by
  have henc : xwidgets_serialize h (.classdef classes i) j = .string ("IPY_MODEL_" ++ i) := by
    simp [xwidgets_serialize, xwidgets_serialize_classdef, octave_value.is_bool_scalar,
      octave_value.is_real_scalar, octave_value.isinteger, octave_value.is_scalar_type,
      octave_value.is_string, octave_value.is_classdef_object, hw]
  have hdec : xwidgets_deserialize ov (.string ("IPY_MODEL_" ++ i)) b
      = .string ("IPY_MODEL_" ++ i) := by
    simp [xwidgets_deserialize, json.is_boolean, json.is_number_float,
      json.is_number_integer, json.is_string, json.get_string]
  rw [henc, hdec]
  exact ⟨rfl, rfl, rfl⟩

/-- C15 at a reference to the example widget. -/
theorem object_reference_encodes_one_way_witness :
    "__xwidget_internal__" ∈ ["Slider", "__xwidget_internal__", "handle"]
    ∧ xwidgets_serialize octave slider_reference .null = .string "IPY_MODEL_0123abcd"
    ∧ xwidgets_deserialize .undefined (xwidgets_serialize octave slider_reference .null) []
        = .string "IPY_MODEL_0123abcd" :=
  ⟨by decide,
    (object_reference_encodes_one_way octave ["Slider", "__xwidget_internal__", "handle"]
      "0123abcd" .undefined .null [] (by decide)).1,
    (object_reference_encodes_one_way octave ["Slider", "__xwidget_internal__", "handle"]
      "0123abcd" .undefined .null [] (by decide)).2.1⟩

/-- C16 (collection encoding): a cell array with the elements `e1, ..., en`
is encoded, by the dispatcher, as the array whose i-th element is the
encoding of `ei` into a fresh document, in the same order and of the same
length, whatever the document held before, and the empty cell as the empty
array; the overload for an array of strings does the same with its
strings. -/
theorem collection_is_encoded_elementwise (h : host) :
    (∀ (cv : List octave_value) (j : json),
        xwidgets_serialize h (.cell cv) j
            = .array (cv.map (fun e => xwidgets_serialize h e .null))
        ∧ ∃ elems, xwidgets_serialize h (.cell cv) j = .array elems
            ∧ elems.length = cv.length
            ∧ ∀ i (hi : i < cv.length),
                elems[i]? = some (xwidgets_serialize h (cv.get ⟨i, hi⟩) .null))
    ∧ (∀ j : json, xwidgets_serialize h (.cell []) j = .array [])
    ∧ (∀ mv : List String,
        xwidgets_serialize_string_array mv
            = .array (mv.map (fun s => xwidgets_serialize h (.string s) .null))
        ∧ xwidgets_serialize_string_array [] = .array []) := by
  have hcell : ∀ (cv : List octave_value) (j : json),
      xwidgets_serialize h (.cell cv) j
        = .array (cv.map (fun e => xwidgets_serialize h e .null)) := by
    intro cv j
    simp [xwidgets_serialize, octave_value.is_bool_scalar, octave_value.is_real_scalar,
      octave_value.isinteger, octave_value.is_scalar_type, octave_value.is_string,
      octave_value.is_classdef_object, octave_value.iscell,
      xwidgets_serialize_matrix_like_array]
  refine ⟨?_, ?_, ?_⟩
  · intro cv j
    refine ⟨hcell cv j, _, hcell cv j, by simp, ?_⟩
    intro i hi
    simp [List.getElem?_map, List.getElem?_eq_getElem hi]
  · intro j
    rw [hcell]
    rfl
  · intro mv
    constructor
    · simp [xwidgets_serialize_string_array, xwidgets_serialize_matrix_like_string_array,
        xwidgets_serialize_string]
    · rfl

/-- C16 at a cell with a logical, a string and a struct (the struct, which
has no encoding, is `null` in the array), and at an array of two strings. -/
theorem collection_is_encoded_elementwise_witness :
    xwidgets_serialize octave (.cell [.bool true, .string "x", .map []]) .null
        = .array [.boolean true, .string "x", .null]
    ∧ xwidgets_serialize_string_array ["a", "b"] = .array [.string "a", .string "b"] :=
  ⟨((collection_is_encoded_elementwise octave).1 [.bool true, .string "x", .map []] .null).1,
    ((collection_is_encoded_elementwise octave).2.2 ["a", "b"]).1⟩

/-- C17 (registration is append-only and fails fast): `observe` with a
function handle `c` returns no value and changes the observer table only,
where it appends `c` to the list of `n` and leaves every other list as it
was, and `on` does the same to the event table; with `c` no function handle
both raise the error on the handle and leave the widget as it was; and with
a name that is no string both raise the error on the name and leave the
widget as it was. -/
theorem registration_appends_or_fails (w : xwidget) (n : String) (c : octave_value) :
    (c.is_function_handle = true →
        ((Fobserve w (.string n) c).2 = .ok []
          ∧ (Fobserve w (.string n) c).1.observers n = w.observers n ++ [c]
          ∧ (∀ g, g ≠ n → (Fobserve w (.string n) c).1.observers g = w.observers g)
          ∧ (Fobserve w (.string n) c).1
              = { w with m_observerCallbacks := (Fobserve w (.string n) c).1.m_observerCallbacks })
        ∧ ((Fon w (.string n) c).2 = .ok []
          ∧ (Fon w (.string n) c).1.event_callbacks n = w.event_callbacks n ++ [c]
          ∧ (∀ g, g ≠ n → (Fon w (.string n) c).1.event_callbacks g = w.event_callbacks g)
          ∧ (Fon w (.string n) c).1
              = { w with m_eventCallbacks := (Fon w (.string n) c).1.m_eventCallbacks }))
    ∧ (c.is_function_handle = false →
        Fobserve w (.string n) c = (w, .error "HANDLE must be a function handle")
        ∧ Fon w (.string n) c = (w, .error "HANDLE must be a function handle"))
    ∧ ∀ a : octave_value, a.is_string = false →
        Fobserve w a c = (w, .error "PNAME must be a string with the property name")
        ∧ Fon w a c = (w, .error "EVENT must be a string with the event name") := by
  refine ⟨?_, ?_, ?_⟩
  · intro hc
    rw [Fobserve_handle w n c hc, Fon_handle w n c hc]
    refine ⟨⟨rfl, ?_, ?_, rfl⟩, ⟨rfl, ?_, ?_, rfl⟩⟩
    · simp [xwidget.observers, push_back_callback_self]
    · intro g hg
      simp [xwidget.observers, push_back_callback_ne _ _ _ _ hg]
    · simp [xwidget.event_callbacks, push_back_callback_self]
    · intro g hg
      simp [xwidget.event_callbacks, push_back_callback_ne _ _ _ _ hg]
  · intro hc
    simp [Fobserve, Fon, octave_value.xstring_value, octave_value.is_string,
      octave_value.string_value, hc]
  · intro a ha
    simp [Fobserve, Fon, octave_value.xstring_value, ha]

/-- C17 at the example widget: a third observer of `value` goes to the end of
its list, and a string in the place of the handle is refused. -/
theorem registration_appends_or_fails_witness :
    (Fobserve slider (.string "value") (.fcn_handle "late")).1.observers "value"
        = [.fcn_handle "on_value", .fcn_handle "log", .fcn_handle "late"]
    ∧ (Fon slider (.string "click") (.fcn_handle "first")).1.event_callbacks "click"
        = [.fcn_handle "first"]
    ∧ Fobserve slider (.string "value") (.string "late")
        = (slider, .error "HANDLE must be a function handle") :=
  ⟨((registration_appends_or_fails slider "value" (.fcn_handle "late")).1 rfl).1.2.1,
    ((registration_appends_or_fails slider "click" (.fcn_handle "first")).1 rfl).2.2.1,
    ((registration_appends_or_fails slider "value" (.string "late")).2.1 rfl).1⟩

end XWidgets
